import Mathlib

/-!
Shallow embedding of `src/pygeobox/api/backend/sensorthings.py`
(`SensorthingsBackend`), the SensorThings-API backend adapter of pygeobox.

The adapter translates collection-management operations into HTTP calls.
We model the HTTP layer explicitly: every operation returns its result
together with the list of HTTP requests it issued, in order.  The remote
service is modelled by pairing each item with the HTTP status code (or,
for `delete_collection_item`, the transport outcome) that the
corresponding call would receive; this is faithful because the source
issues at most one call per item and consumes each response immediately.

Exceptions raised by the Python code (`NotImplementedError`, `ValueError`)
are modelled with `Except`.  Logging calls are side effects with no
observable result in the source and are not modelled.
-/

namespace Pygeobox

/-- HTTP verbs used by the adapter. -/
inductive HttpMethod
| GET
| POST
| PATCH
| DELETE
deriving DecidableEq, Repr

/-- An outbound HTTP request: verb, URL, and optional serialized body. -/
structure Request where
  method : HttpMethod
  url : String
  body : Option String
deriving DecidableEq, Repr

/-- Exceptions the adapter can raise: `NotImplementedError` from
`add_collection`, `ValueError` from `upsert_collection_items`. -/
inductive BackendError
| notImplemented
| valueError (msg : String)
deriving DecidableEq, Repr

/-- In the requests library, `r.ok` is true exactly when the status code is
below 400. -/
def response_ok (status : Nat) : Bool := status < 400

/-- A SensorThings entity identifier (the value of the reserved field
`@iot.id`): the service may use integers or strings. -/
inductive IotId
| num (n : Int)
| str (s : String)
deriving DecidableEq, Repr

/-- Interpolation of an identifier into an f-string: Python renders an int
as its decimal form and a string as itself. -/
def IotId.render : IotId → String
| .num n => toString n
| .str s => s

/-- A single-quote character as a string, for building quoted URL segments. -/
def squo : String := String.singleton '\''

/-- A SensorThings entity as far as the adapter inspects it: its
`@iot.id` field and its JSON serialization (`to_json entity`). -/
structure Entity where
  iot_id : IotId
  json : String
deriving DecidableEq, Repr

/-- Modelled from the spec: `pygeobox.util.url_join` is imported by the
backend but its source is not under `src/`; the spec describes endpoint
resolution as joining the trailing segment to the base URL, so we model
it as slash-joining. -/
def url_join (base part : String) : String := base ++ "/" ++ part

/-- Python `collection_id.split(".")` on the character list: splits at
every dot; the result is always nonempty (splitting the empty string
gives one empty group, as in Python). -/
def pySplitDot : List Char → List (List Char)
| [] => [[]]
| c :: rest =>
  if c = '.' then [] :: pySplitDot rest
  else
    match pySplitDot rest with
    | [] => [[c]]
    | g :: gs => (c :: g) :: gs

/-- Python `list.pop()` as used on the result of `split`: the last
element (the split result is never empty). -/
def lastGroup : List (List Char) → List Char
| [] => []
| g :: gs =>
  match gs with
  | [] => g
  | g2 :: gs2 => lastGroup (g2 :: gs2)

/-- The last dot-separated segment of a string:
`collection_id.split(".").pop()`. -/
def last_dot_segment (s : String) : String :=
  String.mk (lastGroup (pySplitDot s.data))

/-- `SensorthingsBackend.sta_id`: make the collection id STA friendly by
taking the last dot-separated segment and joining it to the base URL. -/
def sta_id (url collection_id : String) : String :=
  url_join url (last_dot_segment collection_id)

/-- `SensorthingsBackend.add_collection`: raises `NotImplementedError`
before doing anything; the request trace is empty. -/
def add_collection (url collection_id : String) :
    Except BackendError Bool × List Request :=
  (.error .notImplemented, [])

/-- `SensorthingsBackend.has_collection`: returns `True` unconditionally,
issuing no HTTP request. -/
def has_collection (url collection_id : String) : Bool × List Request :=
  (true, [])

/-- The DELETE request issued for one listed item inside
`delete_collection`: unquoted identifier in parentheses, no body. -/
def delete_request (sta_index : String) (i : IotId) : Request :=
  ⟨.DELETE, sta_index ++ "(" ++ i.render ++ ")", none⟩

/-- The loop of `SensorthingsBackend.delete_collection`: one DELETE per
listed item in order; on the first response whose status differs from
200 it stops and reports failure. Each listed item is paired with the
status its DELETE would receive. -/
def delete_collection_loop (sta_index : String) :
    List (IotId × Nat) → Bool × List Request
| [] => (true, [])
| (i, status) :: rest =>
  let req := delete_request sta_index i
  if status = 200 then
    let r := delete_collection_loop sta_index rest
    (r.1, req :: r.2)
  else (false, [req])

/-- `SensorthingsBackend.delete_collection`: GET the listing, then delete
every listed item, failing fast on the first non-200 status. `listing`
is the item list the GET returns, each item paired with the status its
DELETE would receive. -/
def delete_collection (url collection_id : String)
    (listing : List (IotId × Nat)) : Bool × List Request :=
  let sta_index := sta_id url collection_id
  let r := delete_collection_loop sta_index listing
  (r.1, ⟨.GET, sta_index, none⟩ :: r.2)

/-- The prefix of the listing that `delete_collection` actually attempts:
everything up to and including the first item whose DELETE status is not
200. -/
def delete_attempts : List (IotId × Nat) → List (IotId × Nat)
| [] => []
| (i, s) :: rest =>
  if s = 200 then (i, s) :: delete_attempts rest else [(i, s)]

/-- The single HTTP request `upsert_collection_items` issues for one
entity, as dictated by the method selector; `none` for an unsupported
selector (the `ValueError` branch).  Note the PATCH URL quotes the
identifier while the DELETE URL does not, exactly as in the source. -/
def upsert_request (sta_index method : String) (entity : Entity) :
    Option Request :=
  if method = "PATCH" then
    some ⟨.PATCH, sta_index ++ "(" ++ squo ++ entity.iot_id.render ++ squo ++ ")",
          some entity.json⟩
  else if method = "DELETE" then
    some ⟨.DELETE, sta_index ++ "(" ++ entity.iot_id.render ++ ")", none⟩
  else if method = "POST" then
    some ⟨.POST, sta_index, some entity.json⟩
  else none

/-- The loop of `SensorthingsBackend.upsert_collection_items`: for each
entity in order, dispatch one call per the method selector; raise
`ValueError` on an unsupported selector; return `False` on the first
response that is not ok.  Each entity is paired with the status code its
call would receive. -/
def upsert_loop (sta_index method : String) :
    List (Entity × Nat) → Except BackendError Bool × List Request
| [] => (.ok true, [])
| (e, status) :: rest =>
  match upsert_request sta_index method e with
  | none => (.error (.valueError ("Unsupported method: " ++ method)), [])
  | some req =>
    if response_ok status then
      let r := upsert_loop sta_index method rest
      (r.1, req :: r.2)
    else (.ok false, [req])

/-- `SensorthingsBackend.upsert_collection_items` (the Python signature
defaults `method` to POST; callers here always pass it explicitly). -/
def upsert_collection_items (url collection_id : String)
    (items : List (Entity × Nat)) (method : String) :
    Except BackendError Bool × List Request :=
  upsert_loop (sta_id url collection_id) method items

/-- The prefix of the batch that `upsert_collection_items` actually
processes: everything up to and including the first entity whose
response is not ok. -/
def upsert_attempts : List (Entity × Nat) → List (Entity × Nat)
| [] => []
| (e, s) :: rest =>
  if response_ok s then (e, s) :: upsert_attempts rest else [(e, s)]

/-- Python `int(s)` digit part after the first digit: digits, with single
underscores allowed between digits (ASCII digits only). `acc` is the
value of the digits consumed so far. -/
def pyDigits : List Char → Nat → Option Nat
| [], acc => some acc
| c :: rest, acc =>
  if c.isDigit then pyDigits rest (acc * 10 + (c.toNat - 48))
  else if c = '_' then
    match rest with
    | [] => none
    | c2 :: rest2 =>
      if c2.isDigit then pyDigits rest2 (acc * 10 + (c2.toNat - 48))
      else none
  else none

/-- Python `int(s)` unsigned digit part: at least one digit, underscores
only between digits. -/
def pyNat : List Char → Option Nat
| [] => none
| c :: rest =>
  if c.isDigit then pyDigits rest (c.toNat - 48) else none

/-- ASCII whitespace stripped by Python `int(str)`. -/
def isPySpace (c : Char) : Bool :=
  c = ' ' || c = '\t' || c = '\n' || c = '\r' || c = '\x0b' || c = '\x0c'

/-- Strip leading and trailing whitespace. -/
def pyStrip (l : List Char) : List Char :=
  ((l.dropWhile isPySpace).reverse.dropWhile isPySpace).reverse

/-- Python `int(s)` for a string: optional surrounding whitespace, an
optional single sign, then a digit part; `none` models `ValueError`. -/
def pyIntOfChars (l : List Char) : Option Int :=
  match pyStrip l with
  | [] => none
  | c :: rest =>
    if c = '+' then (pyNat rest).map Int.ofNat
    else if c = '-' then (pyNat rest).map (fun n => -(n : Int))
    else (pyNat (c :: rest)).map Int.ofNat

/-- Python `int(item_id)` on the identifier string. -/
def pyIntOfString (s : String) : Option Int := pyIntOfChars s.data

/-- The path segment `delete_collection_item` puts inside the
parentheses: the decimal form when `int(item_id)` succeeds, the
identifier wrapped in single quotes when it raises `ValueError`. -/
def delete_item_segment (item_id : String) : String :=
  match pyIntOfString item_id with
  | some n => toString n
  | none => squo ++ item_id ++ squo

/-- `SensorthingsBackend.delete_collection_item`: build the DELETE URL
from the coerced identifier and issue the DELETE inside a
catch-all handler; `outcome` is what the HTTP call would do, either
raise (with a message) or return a response with the given status.  The
source ignores the status entirely; only a raised exception yields
`False`.  The result is a plain `Bool`, never a propagated exception. -/
def delete_collection_item (url collection_id item_id : String)
    (outcome : Except String Nat) : Bool × List Request :=
  let sta_index := sta_id url collection_id
  let req : Request :=
    ⟨.DELETE, sta_index ++ "(" ++ delete_item_segment item_id ++ ")", none⟩
  match outcome with
  | .error _ => (false, [req])
  | .ok _ => (true, [req])

/-!
Helper lemmas about the loops and the string machinery.
-/

lemma delete_collection_loop_eq (sta_index : String) :
    ∀ l : List (IotId × Nat),
      delete_collection_loop sta_index l =
        (l.all (fun p => p.2 == 200),
         (delete_attempts l).map (fun p => delete_request sta_index p.1))
  | [] => rfl
  | (i, s) :: rest => by
      by_cases hs : s = 200
      · simp [delete_collection_loop, delete_attempts, hs,
              delete_collection_loop_eq sta_index rest]
      · simp [delete_collection_loop, delete_attempts, hs]

lemma upsert_loop_eq (sta_index method : String) (f : Entity → Request)
    (hf : ∀ e, upsert_request sta_index method e = some (f e)) :
    ∀ l : List (Entity × Nat),
      upsert_loop sta_index method l =
        (.ok (l.all (fun p => response_ok p.2)),
         (upsert_attempts l).map (fun p => f p.1))
  | [] => rfl
  | (e, s) :: rest => by
      cases hok : response_ok s
      · simp [upsert_loop, upsert_attempts, hf, hok]
      · simp [upsert_loop, upsert_attempts, hf, hok,
              upsert_loop_eq sta_index method f hf rest]

/-!
Claim theorems.
-/

/-- C1: `delete_collection` fetches the listing with a GET, then issues one
DELETE per listed item in list order, returning `False` immediately upon the
first DELETE whose status is not the success status 200 (the condition the
source tests) and issuing no further DELETE calls, and `True` when every
DELETE succeeds; in particular, for a listing of items with ids 1 and 2
whose second DELETE returns a non-200 status, exactly two DELETE calls are
issued and the result is `False`. -/
theorem delete_collection_fail_fast (u c : String)
    (listing : List (IotId × Nat)) (s : Nat) (hs : s ≠ 200) :
    delete_collection u c listing =
      (listing.all (fun p => p.2 == 200),
       Request.mk .GET (sta_id u c) none ::
         (delete_attempts listing).map (fun p => delete_request (sta_id u c) p.1)) ∧
    delete_collection u c [(.num 1, 200), (.num 2, s)] =
      (false, [Request.mk .GET (sta_id u c) none,
               delete_request (sta_id u c) (.num 1),
               delete_request (sta_id u c) (.num 2)]) := by
  constructor
  · simp [delete_collection, delete_collection_loop_eq]
  · simp [delete_collection, delete_collection_loop_eq, delete_attempts, hs]

/-- Witness for C1 at a concrete listing with a failing second DELETE. -/
theorem delete_collection_fail_fast_witness :
    delete_collection "http://x" "a.b" [(.num 1, 200), (.num 2, 404)] =
      (false, [Request.mk .GET (sta_id "http://x" "a.b") none,
               delete_request (sta_id "http://x" "a.b") (.num 1),
               delete_request (sta_id "http://x" "a.b") (.num 2)]) :=
  (delete_collection_fail_fast "http://x" "a.b" [] 404 (by decide)).2

/-- C2: `upsert_collection_items` processes the batch in order, issuing for
each item exactly one call determined by the method selector (POST of the
serialized item to the collection endpoint, PATCH to the
parenthesized-identifier URL, DELETE to the parenthesized-identifier URL),
returns `False` on the first response that is not ok with no calls for
subsequent items, and `True` when all responses are ok. -/
theorem upsert_collection_items_dispatch (u c : String)
    (items : List (Entity × Nat)) :
    upsert_collection_items u c items "POST" =
      (.ok (items.all (fun p => response_ok p.2)),
       (upsert_attempts items).map
         (fun p => Request.mk .POST (sta_id u c) (some p.1.json))) ∧
    upsert_collection_items u c items "PATCH" =
      (.ok (items.all (fun p => response_ok p.2)),
       (upsert_attempts items).map
         (fun p => Request.mk .PATCH
            (sta_id u c ++ "(" ++ squo ++ p.1.iot_id.render ++ squo ++ ")")
            (some p.1.json))) ∧
    upsert_collection_items u c items "DELETE" =
      (.ok (items.all (fun p => response_ok p.2)),
       (upsert_attempts items).map
         (fun p => Request.mk .DELETE
            (sta_id u c ++ "(" ++ p.1.iot_id.render ++ ")") none)) :=
  ⟨upsert_loop_eq (sta_id u c) "POST"
     (fun en => Request.mk .POST (sta_id u c) (some en.json))
     (fun e => rfl) items,
   upsert_loop_eq (sta_id u c) "PATCH"
     (fun en => Request.mk .PATCH
        (sta_id u c ++ "(" ++ squo ++ en.iot_id.render ++ squo ++ ")")
        (some en.json))
     (fun e => rfl) items,
   upsert_loop_eq (sta_id u c) "DELETE"
     (fun en => Request.mk .DELETE
        (sta_id u c ++ "(" ++ en.iot_id.render ++ ")") none)
     (fun e => rfl) items⟩

/-- C3 counterexample: with an empty items list, an unsupported method
selector does not raise; the call returns the success result `True`. -/
theorem upsert_invalid_method_empty_batch_returns :
    upsert_collection_items "http://example.org" "obs.Things" [] "PUT" =
      (.ok true, []) := rfl

/-- C3 amended: for every nonempty items list, a method selector outside
POST, PATCH, DELETE raises `ValueError` rather than returning a result. -/
theorem upsert_invalid_method_nonempty_raises (u c method : String)
    (e : Entity) (s : Nat) (rest : List (Entity × Nat))
    (hm : method ≠ "POST" ∧ method ≠ "PATCH" ∧ method ≠ "DELETE") :
    upsert_collection_items u c ((e, s) :: rest) method =
      (.error (.valueError ("Unsupported method: " ++ method)), []) := by
  obtain ⟨h1, h2, h3⟩ := hm
  simp [upsert_collection_items, upsert_loop, upsert_request, h1, h2, h3]

/-- Witness for the amended C3 at method PUT with a one-item batch. -/
theorem upsert_invalid_method_nonempty_raises_witness :
    upsert_collection_items "http://example.org" "obs.Things"
        [(Entity.mk (.num 1) "payload", 200)] "PUT" =
      (.error (.valueError ("Unsupported method: " ++ "PUT")), []) :=
  upsert_invalid_method_nonempty_raises _ _ _ _ _ _
    ⟨by decide, by decide, by decide⟩

/-- C4: `delete_collection_item` never propagates a failure: when the
underlying HTTP delete raises, the exception is swallowed and the result is
`False`; otherwise the result is `True` regardless of the response status.
The result type is a plain boolean, so no exception escapes. -/
theorem delete_collection_item_never_raises (u c i msg : String) (st : Nat) :
    delete_collection_item u c i (.error msg) =
      (false, [Request.mk .DELETE
        (sta_id u c ++ "(" ++ delete_item_segment i ++ ")") none]) ∧
    delete_collection_item u c i (.ok st) =
      (true, [Request.mk .DELETE
        (sta_id u c ++ "(" ++ delete_item_segment i ++ ")") none]) :=
  ⟨rfl, rfl⟩

/-- C7: `add_collection` raises `NotImplementedError` for every input,
returning no value and issuing no HTTP request. -/
theorem add_collection_not_implemented (u c : String) :
    add_collection u c = (.error .notImplemented, []) := rfl

/-- C8: `has_collection` returns `True` for every input without issuing
any HTTP request. -/
theorem has_collection_always_true (u c : String) :
    has_collection u c = (true, []) := rfl

/-- C9: with an empty items list, `upsert_collection_items` returns `True`
for every method selector, including unsupported ones: the invalid-argument
check sits inside the loop over items, so nothing is raised. -/
theorem upsert_empty_batch_returns_true (u c method : String) :
    upsert_collection_items u c [] method = (.ok true, []) := rfl

/-- C10: the entity identifier is quoted inconsistently across methods in
`upsert_collection_items`: the PATCH URL always wraps the id in single
quotes while the DELETE URL never does, for every identifier, numeric or
not. -/
theorem upsert_quoting_inconsistent (u c : String) (e : Entity) (st : Nat) :
    upsert_collection_items u c [(e, st)] "PATCH" =
      (.ok (response_ok st),
       [Request.mk .PATCH
          (sta_id u c ++ "(" ++ squo ++ e.iot_id.render ++ squo ++ ")")
          (some e.json)]) ∧
    upsert_collection_items u c [(e, st)] "DELETE" =
      (.ok (response_ok st),
       [Request.mk .DELETE
          (sta_id u c ++ "(" ++ e.iot_id.render ++ ")") none]) := by
  cases hok : response_ok st <;>
    exact ⟨by simp [upsert_collection_items, upsert_loop, upsert_request, hok],
           by simp [upsert_collection_items, upsert_loop, upsert_request, hok]⟩

lemma dropWhile_eq_self_of {p : Char → Bool} :
    ∀ l : List Char, (∀ c ∈ l, p c = false) → l.dropWhile p = l
  | [], _ => rfl
  | c :: rest, h => by
      simp [List.dropWhile, h c (List.mem_cons_self c rest)]

lemma isPySpace_eq_false_of_isDigit {c : Char} (h : c.isDigit) :
    isPySpace c = false := by
  cases hsp : isPySpace c
  · rfl
  · exfalso
    unfold isPySpace at hsp
    simp only [Bool.or_eq_true, decide_eq_true_eq] at hsp
    rcases hsp with ((((h1 | h1) | h1) | h1) | h1) | h1 <;> subst h1 <;>
      revert h <;> decide

lemma pyStrip_eq_self (l : List Char) (h : ∀ c ∈ l, c.isDigit) :
    pyStrip l = l := by
  have hns : ∀ c ∈ l, isPySpace c = false :=
    fun c hc => isPySpace_eq_false_of_isDigit (h c hc)
  unfold pyStrip
  rw [dropWhile_eq_self_of l hns,
      dropWhile_eq_self_of l.reverse (fun c hc => hns c (List.mem_reverse.mp hc)),
      List.reverse_reverse]

lemma pyDigits_of_all_digits :
    ∀ (l : List Char) (acc : Nat), (∀ c ∈ l, c.isDigit) →
      ∃ m, pyDigits l acc = some m
  | [], acc, _ => ⟨acc, rfl⟩
  | c :: rest, acc, h => by
      have hc : c.isDigit := h c (List.mem_cons_self c rest)
      obtain ⟨m, hm⟩ := pyDigits_of_all_digits rest (acc * 10 + (c.toNat - 48))
        (fun x hx => h x (List.mem_cons_of_mem c hx))
      exact ⟨m, by unfold pyDigits; rw [if_pos hc]; exact hm⟩

lemma pyIntOfString_of_digits (s : String) (hne : s.data ≠ [])
    (hd : ∀ c ∈ s.data, c.isDigit) :
    ∃ n : Nat, pyIntOfString s = some (Int.ofNat n) := by
  obtain ⟨c, rest, hcr⟩ : ∃ c rest, s.data = c :: rest := by
    cases hs : s.data with
    | nil => exact absurd hs hne
    | cons c rest => exact ⟨c, rest, rfl⟩
  have hc : c.isDigit := hd c (by rw [hcr]; exact List.mem_cons_self c rest)
  have hplus : ¬ (c = '+') := by rintro rfl; revert hc; decide
  have hminus : ¬ (c = '-') := by rintro rfl; revert hc; decide
  obtain ⟨m, hm⟩ := pyDigits_of_all_digits rest (c.toNat - 48)
    (fun x hx => hd x (by rw [hcr]; exact List.mem_cons_of_mem c hx))
  refine ⟨m, ?_⟩
  unfold pyIntOfString pyIntOfChars
  rw [pyStrip_eq_self s.data hd, hcr]
  simp [hplus, hminus, pyNat, hc, hm]

/-- C5: in `delete_collection_item`, when `int(item_id)` succeeds on a
nonnegative value the DELETE URL carries the unquoted decimal segment, and
when `int(item_id)` fails the URL carries the identifier wrapped in single
quotes; purely numeric identifier strings (nonempty, all ASCII digits)
always parse to a nonnegative value, hence always get the numeric
segment. -/
theorem delete_collection_item_quoting (u c s : String)
    (outcome : Except String Nat) :
    (s.data ≠ [] → (∀ ch ∈ s.data, ch.isDigit) →
       ∃ n : Nat, pyIntOfString s = some (Int.ofNat n)) ∧
    (∀ n : Nat, pyIntOfString s = some (Int.ofNat n) →
       (delete_collection_item u c s outcome).2 =
         [Request.mk .DELETE
            (sta_id u c ++ "(" ++ toString n ++ ")") none]) ∧
    (pyIntOfString s = none →
       (delete_collection_item u c s outcome).2 =
         [Request.mk .DELETE
            (sta_id u c ++ "(" ++ squo ++ s ++ squo ++ ")") none]) := by
  refine ⟨pyIntOfString_of_digits s, ?_, ?_⟩
  · intro n hn
    have hts : toString ((n : Nat) : Int) = toString n := rfl
    cases outcome <;>
      simp [delete_collection_item, delete_item_segment, hn, hts,
            String.append_assoc]
  · intro hn
    cases outcome <;>
      simp [delete_collection_item, delete_item_segment, hn,
            String.append_assoc]

/-- Witness for C5: a numeric identifier yields an unquoted segment, a
non-numeric one a quoted segment. -/
theorem delete_collection_item_quoting_witness :
    (delete_collection_item "http://x" "a.b" "42" (.ok 200)).2 =
      [Request.mk .DELETE
         (sta_id "http://x" "a.b" ++ "(" ++ toString (42 : Nat) ++ ")") none] ∧
    (delete_collection_item "http://x" "a.b" "abc" (.ok 200)).2 =
      [Request.mk .DELETE
         (sta_id "http://x" "a.b" ++ "(" ++ squo ++ "abc" ++ squo ++ ")")
         none] :=
  ⟨(delete_collection_item_quoting "http://x" "a.b" "42" (.ok 200)).2.1 42
     (by decide),
   (delete_collection_item_quoting "http://x" "a.b" "abc" (.ok 200)).2.2
     (by decide)⟩

lemma pySplitDot_ne_nil : ∀ l : List Char, pySplitDot l ≠ []
  | [] => by simp [pySplitDot]
  | c :: rest => by
      by_cases hc : c = '.'
      · simp [pySplitDot, hc]
      · cases h : pySplitDot rest with
        | nil => simp [pySplitDot, hc, h]
        | cons g gs => simp [pySplitDot, hc, h]

lemma pySplitDot_no_dot :
    ∀ l : List Char, (∀ c ∈ l, c ≠ '.') → pySplitDot l = [l]
  | [], _ => rfl
  | c :: rest, h => by
      have hc : c ≠ '.' := h c (List.mem_cons_self c rest)
      have hrest := pySplitDot_no_dot rest
        (fun x hx => h x (List.mem_cons_of_mem c hx))
      simp [pySplitDot, hc, hrest]

lemma lastGroup_cons_of_ne_nil (x : List Char) :
    ∀ gs : List (List Char), gs ≠ [] → lastGroup (x :: gs) = lastGroup gs
  | [], h => absurd rfl h
  | g :: gs2, _ => rfl

lemma pySplitDot_append_dot :
    ∀ a b : List Char, ∃ g g2 gs, pySplitDot (a ++ '.' :: b) = g :: g2 :: gs
  | [], b => by
      obtain ⟨h, t, ht⟩ : ∃ h t, pySplitDot b = h :: t := by
        cases hb : pySplitDot b with
        | nil => exact absurd hb (pySplitDot_ne_nil b)
        | cons h t => exact ⟨h, t, rfl⟩
      exact ⟨[], h, t, by simp [pySplitDot, ht]⟩
  | c :: a, b => by
      obtain ⟨g, g2, gs, hrec⟩ := pySplitDot_append_dot a b
      by_cases hc : c = '.'
      · exact ⟨[], g, g2 :: gs, by simp [pySplitDot, hc, hrec]⟩
      · exact ⟨c :: g, g2, gs, by simp [pySplitDot, hc, hrec]⟩

lemma lastGroup_pySplitDot_append :
    ∀ a b : List Char,
      lastGroup (pySplitDot (a ++ '.' :: b)) = lastGroup (pySplitDot b)
  | [], b => by
      have hstep : pySplitDot (([] : List Char) ++ '.' :: b) =
          [] :: pySplitDot b := by simp [pySplitDot]
      rw [hstep, lastGroup_cons_of_ne_nil _ _ (pySplitDot_ne_nil b)]
  | c :: a, b => by
      obtain ⟨g, g2, gs, hrec⟩ := pySplitDot_append_dot a b
      by_cases hc : c = '.'
      · have hstep : pySplitDot ((c :: a) ++ '.' :: b) =
            [] :: pySplitDot (a ++ '.' :: b) := by simp [pySplitDot, hc]
        rw [hstep, lastGroup_cons_of_ne_nil _ _ (pySplitDot_ne_nil _),
            lastGroup_pySplitDot_append a b]
      · have hstep : pySplitDot ((c :: a) ++ '.' :: b) =
            (c :: g) :: g2 :: gs := by simp [pySplitDot, hc, hrec]
        have h1 : lastGroup ((c :: g) :: g2 :: gs) = lastGroup (g2 :: gs) := rfl
        have h2 : lastGroup (g :: g2 :: gs) = lastGroup (g2 :: gs) := rfl
        rw [hstep, h1, ← h2, ← hrec, lastGroup_pySplitDot_append a b]

/-- C6: for a collection identifier containing a dot, `sta_id` resolves to
the join of the base URL with only the part after the last dot: for every
prefix `p` and every dot-free trailing segment `s`, the result on
`p ++ "." ++ s` is `url_join u s`, so no earlier segment influences the
resulting URL. -/
theorem sta_id_last_segment (u p s : String)
    (h : ∀ ch ∈ s.data, ch ≠ '.') :
    sta_id u (p ++ "." ++ s) = url_join u s := by
  have hdata : (p ++ "." ++ s).data = p.data ++ '.' :: s.data := by
    simp [String.data_append]
  unfold sta_id last_dot_segment
  rw [hdata, lastGroup_pySplitDot_append, pySplitDot_no_dot s.data h]
  rfl

/-- Witness for C6 at a dotted identifier. -/
theorem sta_id_last_segment_witness :
    sta_id "http://x" ("obs.foo" ++ "." ++ "Things") =
      url_join "http://x" "Things" :=
  sta_id_last_segment "http://x" "obs.foo" "Things" (by decide)

end Pygeobox
